import Mathlib

/-!
Verification model of `src/app.js`, a small Express service that relays
Google-My-Business requests and aggregates per-location review statistics.

Modelling conventions (shallow embedding):
* JS numbers are modelled as `ℚ` (ratings) and `ℕ` (review counts, HTTP
  statuses); the source never does float-specific arithmetic on them.
* A JS value that may be `undefined`/`null` is an `Option`; the JS
  truthiness test `x || d` on strings/numbers also treats `""`/`0` as
  falsy, which the helpers `jsStrOr`/`jsNatOr`/`jsNumOr` reproduce.
* The `Authorization` header is modelled as a `List Char` so that
  `String.prototype.split`/`startsWith` (`splitCh`/`startsWithL`) are
  structurally recursive and provable by induction.
* Each HTTP handler is a pure function of the upstream call results it
  performs; `axios` outcomes are an explicit `UpstreamResult` argument.
  `Promise.all(locations.map f)` is modelled as `List.map`: `Promise.all`
  resolves with the results in input order, which this captures.
* `res.json({success:true, ...})` versus `res.status(s).json({success:false,
  error})` is modelled structurally by the two constructors of the
  response types below.
-/

/-- JS `x || d` for an optional string: `undefined`/`null` and `""` are falsy. -/
def jsStrOr (o : Option String) (d : String) : String :=
  match o with
  | none => d
  | some s => if s = "" then d else s

/-- JS `x || d` for an optional number field holding a count: `0` is falsy. -/
def jsNatOr (o : Option Nat) (d : Nat) : Nat :=
  match o with
  | none => d
  | some n => if n = 0 then d else n

/-- JS `x || d` for an optional numeric rating: `0` is falsy. -/
def jsNumOr (o : Option ℚ) (d : ℚ) : ℚ :=
  match o with
  | none => d
  | some v => if v = 0 then d else v

/-- JS `String.prototype.split(sep)` for a one-character separator, on the
character-list view of the string.  Empty pieces are kept, as in JS. -/
def splitCh (sep : Char) : List Char → List (List Char)
  | [] => [[]]
  | c :: cs =>
    let r := splitCh sep cs
    if c = sep then [] :: r else (c :: r.head!) :: r.tail

/-- JS `s.startsWith(pat)` on the character-list view. -/
def startsWithL : List Char → List Char → Bool
  | _, [] => true
  | [], _ :: _ => false
  | c :: cs, p :: ps => c == p && startsWithL cs ps

/-- `location.name.split('/').pop()` from `src/app.js` (last path segment). -/
def lastSegment (s : String) : String :=
  String.mk ((splitCh '/' s.toList).getLastD [])

/-- JS `Number.prototype.toFixed(2)` on a non-negative rational: round to the
nearest multiple of 1/100, half away from zero (per the ECMAScript spec, ties
pick the larger candidate).  The source renders the result as a decimal
string; we model its numeric value. -/
def toFixed2 (q : ℚ) : ℚ :=
  ((⌊q * 100 + 1 / 2⌋ : ℤ) : ℚ) / 100

/-! ## Upstream (axios) data model -/

/-- `error.response.data.error` of an axios error: the upstream error detail
object, whose `message` may be absent (or empty, which JS `||` treats as
absent). -/
structure ErrDetail where
  message : Option String
  deriving DecidableEq

/-- `error.response.data` of an axios error: the parsed upstream error body.
Its `error` property may be absent. -/
structure ErrPayload where
  error : Option ErrDetail
  deriving DecidableEq

/-- `error.response` of an axios error: the upstream HTTP response, when one
was received.  `payload` is its `data`; `none` models an absent (or falsy)
body. -/
structure ErrResponse where
  status : Nat
  payload : Option ErrPayload
  deriving DecidableEq

/-- An axios failure: `response` is present for non-2xx upstream replies and
absent for transport errors; `message` is the JS `Error.message`. -/
structure AxiosError where
  response : Option ErrResponse
  message : String
  deriving DecidableEq

/-- Outcome of one upstream `axios.get`: either the parsed 2xx body, or a
thrown `AxiosError`. -/
inductive UpstreamResult (α : Type) : Type
  | ok (data : α)
  | err (e : AxiosError)

/-- `error.response?.status || 500` from the catch blocks of `src/app.js`. -/
def statusOf (e : AxiosError) : Nat :=
  match e.response with
  | some r => if r.status = 0 then 500 else r.status
  | none => 500

/-- The `error` field of a `success:false` response: `error.response?.data`
when present (and truthy), else `error.message`. -/
inductive ErrOut : Type
  | body (p : ErrPayload)
  | msg (s : String)
  deriving DecidableEq

/-- `error.response?.data || error.message` from the catch blocks. -/
def errOutOf (e : AxiosError) : ErrOut :=
  match e.response with
  | some r =>
    match r.payload with
    | some p => .body p
    | none => .msg e.message
  | none => .msg e.message

/-! ## Domain records -/

/-- `location.address` as consumed by `src/app.js`: only its `addressLines`
(possibly absent) matter. -/
structure Address where
  addressLines : Option (List String)
  deriving DecidableEq

/-- A location record from the upstream list.  `name` is the full resource
path `accounts/.../locations/...`; `locationName` and `address` may be
absent. -/
structure Location where
  name : String
  locationName : Option String
  address : Option Address
  deriving DecidableEq

/-- Body of a 2xx `/reviews?pageSize=1` reply; both counters may be absent. -/
structure ReviewsData where
  totalReviewCount : Option Nat
  averageRating : Option ℚ
  deriving DecidableEq

/-- Body of a 2xx locations-list reply; the `locations` field may be absent. -/
structure LocationsData where
  locations : Option (List Location)

/-- An upstream account record, relayed opaquely; modelled by its JSON text. -/
def Account : Type := String

/-- Body of a 2xx accounts-list reply; the `accounts` field may be absent. -/
structure AccountsData where
  accounts : Option (List Account)

/-- One entry of `locationStats` in the aggregate response
(`src/app.js:166-181`).  `error` is `some _` exactly on the failure branch. -/
structure LocationStats where
  locationId : String
  locationName : String
  address : String
  totalReviewCount : Nat
  averageRating : ℚ
  error : Option String
  deriving DecidableEq

/-- `globalStats` of the aggregate response (`src/app.js:188-194`). -/
structure GlobalStats where
  totalLocations : Nat
  totalReviews : Nat
  averageRatingAcrossAllLocations : ℚ
  deriving DecidableEq

/-! ## Token validation middleware (`src/app.js:21-31`) -/

/-- The literal `'Bearer '` checked by `validateToken`. -/
def bearerLit : List Char := "Bearer ".toList

/-- The structured 401 body sent by `validateToken`. -/
structure AuthErrorBody where
  error : String
  message : String
  deriving DecidableEq

/-- The concrete 401 body from `src/app.js:24-27`. -/
def authErrorBody : AuthErrorBody :=
  { error := "Token d\x27authentification manquant ou invalide"
    message := "Veuillez fournir un token Bearer dans le header Authorization" }

/-- The `validateToken` middleware as a function from the (optional)
`Authorization` header to the extracted `req.accessToken`
(`authHeader.split(' ')[1]`), or `none` when it responds 401.  The JS guard
`!authHeader` also rejects the empty-string header, which the
`startsWith` test subsumes. -/
def validateToken (authHeader : Option (List Char)) : Option (List Char) :=
  match authHeader with
  | none => none
  | some h =>
    if startsWithL h bearerLit then some ((splitCh ' ' h).getD 1 []) else none

/-- Result of a protected route: either the middleware denied the request
with a 401 and a structured body (the handler never ran, so no upstream call
was made), or the handler ran with the extracted token. -/
inductive RouteResult (α : Type) : Type
  | denied (status : Nat) (body : AuthErrorBody)
  | handled (r : α)

/-- Express pipeline `validateToken` then handler. -/
def runProtected {α : Type} (authHeader : Option (List Char))
    (handler : List Char → α) : RouteResult α :=
  match validateToken authHeader with
  | none => .denied 401 authErrorBody
  | some tok => .handled (handler tok)

/-! ## Single-resource handlers (`src/app.js:37-125`) -/

/-- A relay response: 200 `success:true` with a payload, or
`success:false` with the propagated status and error. -/
inductive RelayResponse (α : Type) : Type
  | ok (payload : α)
  | err (status : Nat) (error : ErrOut)

/-- `GET /api/accounts` handler body (`src/app.js:37-56`), as a function of
the upstream call outcome. -/
def accountsHandler (r : UpstreamResult AccountsData) :
    RelayResponse (List Account) :=
  match r with
  | .ok d => .ok (d.accounts.getD [])
  | .err e => .err (statusOf e) (errOutOf e)

/-- `GET /api/accounts/:accountId/locations` handler body
(`src/app.js:62-85`). -/
def locationsHandler (r : UpstreamResult LocationsData) :
    RelayResponse (List Location) :=
  match r with
  | .ok d => .ok (d.locations.getD [])
  | .err e => .err (statusOf e) (errOutOf e)

/-- Payload of a successful single-location stats reply
(`src/app.js:111-118`). -/
structure SingleStats where
  locationId : String
  totalReviewCount : Nat
  averageRating : ℚ
  deriving DecidableEq

/-- `GET .../reviews-stats` handler body (`src/app.js:91-125`). -/
def reviewsStatsHandler (locationId : String) (r : UpstreamResult ReviewsData) :
    RelayResponse SingleStats :=
  match r with
  | .ok d =>
    .ok { locationId := locationId
          totalReviewCount := jsNatOr d.totalReviewCount 0
          averageRating := jsNumOr d.averageRating 0 }
  | .err e => .err (statusOf e) (errOutOf e)

/-! ## The aggregator (`src/app.js:131-208`) -/

/-- Fallback per-location error message (`src/app.js:180`). -/
def fallbackMsg : String := "Impossible de récupérer les avis"

/-- `error.response?.data?.error?.message` of an axios error. -/
def upstreamMsg (e : AxiosError) : Option String :=
  ((e.response.bind (·.payload)).bind (·.error)).bind (·.message)

/-- The per-location stats fetcher: the async closure mapped over
`locations` (`src/app.js:151-183`).  Its inner try/catch makes it total:
both branches return a `LocationStats`. -/
def fetchLocationStats (location : Location)
    (outcome : UpstreamResult ReviewsData) : LocationStats :=
  match outcome with
  | .ok reviewsData =>
    { locationId := lastSegment location.name
      locationName := jsStrOr location.locationName "N/A"
      address := jsStrOr ((location.address.bind (·.addressLines)).map
        (String.intercalate ", ")) "N/A"
      totalReviewCount := jsNatOr reviewsData.totalReviewCount 0
      averageRating := jsNumOr reviewsData.averageRating 0
      error := none }
  | .err e =>
    { locationId := lastSegment location.name
      locationName := jsStrOr location.locationName "N/A"
      address := jsStrOr ((location.address.bind (·.addressLines)).map
        (String.intercalate ", ")) "N/A"
      totalReviewCount := 0
      averageRating := 0
      error := some (jsStrOr (upstreamMsg e) fallbackMsg) }

/-- `globalStats` computation (`src/app.js:188-194`). -/
def computeGlobalStats (locations : List Location)
    (allStats : List LocationStats) : GlobalStats :=
  { totalLocations := locations.length
    totalReviews := allStats.foldl (fun sum stat => sum + stat.totalReviewCount) 0
    averageRatingAcrossAllLocations :=
      if 0 < allStats.length then
        toFixed2 ((allStats.foldl (fun sum stat => sum + stat.averageRating) 0)
          / (allStats.length : ℚ))
      else 0 }

/-- Body of a successful aggregate response (`src/app.js:196-201`). -/
structure AggOkBody where
  accountId : String
  globalStats : GlobalStats
  locationStats : List LocationStats

/-- The aggregate response: `ok` is the 200 `success:true` body, `err` the
`success:false` body of the outer catch, which carries no `locationStats`. -/
inductive AggResponse : Type
  | ok (body : AggOkBody)
  | err (status : Nat) (error : ErrOut)

/-- The `all-reviews-stats` handler (`src/app.js:131-208`), as a function of
the location-list outcome and of the per-location review outcomes.
`Promise.all(locations.map ...)` is the order-preserving `List.map`. -/
def allReviewsStats (accountId : String)
    (locationsResult : UpstreamResult LocationsData)
    (fetchReviews : Location → UpstreamResult ReviewsData) : AggResponse :=
  match locationsResult with
  | .err e => .err (statusOf e) (errOutOf e)
  | .ok d =>
    let locations := d.locations.getD []
    let allStats := locations.map
      (fun location => fetchLocationStats location (fetchReviews location))
    .ok { accountId := accountId
          globalStats := computeGlobalStats locations allStats
          locationStats := allStats }

/-! ## The four protected routes, middleware included -/

/-- `GET /api/accounts`, middleware included; `upstream` is the call the
handler would make with the extracted token. -/
def accountsRoute (authHeader : Option (List Char))
    (upstream : List Char → UpstreamResult AccountsData) :
    RouteResult (RelayResponse (List Account)) :=
  runProtected authHeader (fun tok => accountsHandler (upstream tok))

/-- `GET /api/accounts/:accountId/locations`, middleware included. -/
def locationsRoute (authHeader : Option (List Char))
    (upstream : List Char → UpstreamResult LocationsData) :
    RouteResult (RelayResponse (List Location)) :=
  runProtected authHeader (fun tok => locationsHandler (upstream tok))

/-- `GET .../reviews-stats`, middleware included. -/
def reviewsStatsRoute (locationId : String) (authHeader : Option (List Char))
    (upstream : List Char → UpstreamResult ReviewsData) :
    RouteResult (RelayResponse SingleStats) :=
  runProtected authHeader (fun tok => reviewsStatsHandler locationId (upstream tok))

/-- `GET .../all-reviews-stats`, middleware included. -/
def allReviewsStatsRoute (accountId : String) (authHeader : Option (List Char))
    (upstreamLocs : List Char → UpstreamResult LocationsData)
    (upstreamReviews : List Char → Location → UpstreamResult ReviewsData) :
    RouteResult AggResponse :=
  runProtected authHeader
    (fun tok => allReviewsStats accountId (upstreamLocs tok) (upstreamReviews tok))

/-! ## Concrete inputs for witnesses (the spec's worked example) -/

/-- Example location L1: its review fetch succeeds with 10 reviews, 4.5 avg. -/
def exL1 : Location := ⟨"accounts/a1/locations/L1", some "Loc One", none⟩

/-- Example location L2: its review fetch fails. -/
def exL2 : Location := ⟨"accounts/a1/locations/L2", some "Loc Two", none⟩

/-- Example locations-list body holding `[exL1, exL2]`. -/
def exLocsData : LocationsData := ⟨some [exL1, exL2]⟩

/-- Example per-location fetch outcomes: success for L1, transport error for
L2. -/
def exFetch : Location → UpstreamResult ReviewsData := fun l =>
  if l.name = exL1.name then .ok ⟨some 10, some (9 / 2)⟩
  else .err ⟨none, "socket hang up"⟩

/-- The successful body of the example aggregate response. -/
def exBody : AggOkBody :=
  match allReviewsStats "a1" (.ok exLocsData) exFetch with
  | .ok b => b
  | .err _ _ => ⟨"", ⟨0, 0, 0⟩, []⟩

/-- Example axios failure carrying a full upstream error body. -/
def exErr : AxiosError :=
  ⟨some ⟨403, some ⟨some ⟨some "Quota exceeded"⟩⟩⟩,
   "Request failed with status code 403"⟩

/-- Example location with no display name and an address without lines. -/
def exBare : Location := ⟨"accounts/a1/locations/L9", none, some ⟨none⟩⟩

/-- The four single-resource error relays, all with the same status and
error value (used to state the shared propagation behaviour of the catch
blocks). -/
def propagatesAs (e : AxiosError) (s : Nat) (b : ErrOut) : Prop :=
  accountsHandler (.err e) = .err s b ∧
  locationsHandler (.err e) = .err s b ∧
  (∀ locationId, reviewsStatsHandler locationId (.err e) = .err s b) ∧
  (∀ accountId fetchReviews,
    allReviewsStats accountId (.err e) fetchReviews = .err s b)

/-! ## Helper lemmas -/

theorem splitCh_ne_nil (sep : Char) (l : List Char) : splitCh sep l ≠ [] := by
  cases l with
  | nil => simp [splitCh]
  | cons c cs =>
    simp only [splitCh]
    split <;> simp

theorem splitCh_getD0 (sep : Char) (l : List Char) :
    (splitCh sep l).getD 0 [] = l.takeWhile (fun c => c != sep) := by
  induction l with
  | nil => simp [splitCh]
  | cons c cs ih =>
    simp only [splitCh, List.takeWhile]
    by_cases h : c = sep
    · simp [h]
    · rw [if_neg h]
      have hne : c != sep := by simp [bne, h]
      rw [hne]
      cases hr : splitCh sep cs with
      | nil => exact absurd hr (splitCh_ne_nil sep cs)
      | cons a t =>
        rw [hr] at ih
        simpa using ih

theorem splitCh_getD1_cons {sep c : Char} {l : List Char} (h : ¬c = sep) :
    (splitCh sep (c :: l)).getD 1 [] = (splitCh sep l).getD 1 [] := by
  simp only [splitCh, if_neg h]
  cases hr : splitCh sep l with
  | nil => exact absurd hr (splitCh_ne_nil sep l)
  | cons a t => simp [List.getD]

theorem splitCh_sep_cons (sep : Char) (l : List Char) :
    splitCh sep (sep :: l) = [] :: splitCh sep l := by
  simp [splitCh]

theorem startsWithL_append (p t : List Char) : startsWithL (p ++ t) p = true := by
  induction p with
  | nil => cases t <;> rfl
  | cons c ps ih => simp [startsWithL, ih]

theorem foldl_add_init {M : Type} [AddMonoid M] {α : Type} (f : α → M)
    (l : List α) (init : M) :
    l.foldl (fun s x => s + f x) init = init + (l.map f).sum := by
  induction l generalizing init with
  | nil => simp
  | cons a t ih => simp [List.foldl, ih, add_assoc]

theorem foldl_add_sum {M : Type} [AddMonoid M] {α : Type} (f : α → M)
    (l : List α) :
    l.foldl (fun s x => s + f x) 0 = (l.map f).sum := by
  simpa using foldl_add_init f l 0

/-! ## Shape lemmas for the aggregate handler -/

theorem allReviewsStats_ok (accountId : String) (d : LocationsData)
    (fetchReviews : Location → UpstreamResult ReviewsData) :
    allReviewsStats accountId (.ok d) fetchReviews =
      .ok ⟨accountId,
        computeGlobalStats (d.locations.getD [])
          ((d.locations.getD []).map
            (fun l => fetchLocationStats l (fetchReviews l))),
        (d.locations.getD []).map
          (fun l => fetchLocationStats l (fetchReviews l))⟩ := rfl

theorem allReviewsStats_err (accountId : String) (e : AxiosError)
    (fetchReviews : Location → UpstreamResult ReviewsData) :
    allReviewsStats accountId (.err e) fetchReviews =
      .err (statusOf e) (errOutOf e) := rfl

/-! ## The claims -/

/-- C1: the per-location stats fetcher is total (it is a Lean function, so it
returns a `LocationStats` for every outcome and can propagate no failure),
and on a failed upstream review fetch it returns `totalReviewCount = 0`,
`averageRating = 0`, and an `error` field equal to the upstream error
message `error.response.data.error.message` when a (non-empty) one is
available, else the generic fallback message. -/
theorem spec_c1 (location : Location) (e : AxiosError) :
    (fetchLocationStats location (.err e)).totalReviewCount = 0 ∧
    (fetchLocationStats location (.err e)).averageRating = 0 ∧
    (∀ m : String, upstreamMsg e = some m → m ≠ "" →
      (fetchLocationStats location (.err e)).error = some m) ∧
    ((upstreamMsg e = none ∨ upstreamMsg e = some "") →
      (fetchLocationStats location (.err e)).error = some fallbackMsg) := by
  refine ⟨rfl, rfl, ?_, ?_⟩
  · intro m hm hne
    simp [fetchLocationStats, jsStrOr, hm, hne]
  · rintro (hm | hm) <;> simp [fetchLocationStats, jsStrOr, hm]

/-- Witness for C1 at a concrete location and failure with a full error
body. -/
theorem spec_c1_witness :
    (fetchLocationStats exL2 (.err exErr)).totalReviewCount = 0 ∧
    (fetchLocationStats exL2 (.err exErr)).averageRating = 0 ∧
    (fetchLocationStats exL2 (.err exErr)).error = some "Quota exceeded" :=
  ⟨(spec_c1 exL2 exErr).1, (spec_c1 exL2 exErr).2.1,
   (spec_c1 exL2 exErr).2.2.1 "Quota exceeded" (by decide) (by decide)⟩

/-- C2: when the location list succeeds with `locs`, the aggregate response
is successful and its `locationStats` has exactly `locs.length` entries,
the i-th entry being the per-location fetch result of the i-th fetched
location (no drops on per-location failure, same order as upstream). -/
theorem spec_c2 (accountId : String)
    (fetchReviews : Location → UpstreamResult ReviewsData)
    (d : LocationsData) (locs : List Location)
    (hlocs : d.locations = some locs) :
    ∃ body, allReviewsStats accountId (.ok d) fetchReviews = .ok body ∧
      body.locationStats.length = locs.length ∧
      ∀ i : Nat, body.locationStats[i]? =
        (locs[i]?).map (fun l => fetchLocationStats l (fetchReviews l)) := by
  refine ⟨_, allReviewsStats_ok accountId d fetchReviews, ?_, ?_⟩
  · simp [hlocs]
  · intro i
    simp [hlocs, List.getElem?_map]

/-- Witness for C2 on the two-location example. -/
theorem spec_c2_witness :
    ∃ body, allReviewsStats "a1" (.ok exLocsData) exFetch = .ok body ∧
      body.locationStats.length = [exL1, exL2].length ∧
      ∀ i : Nat, body.locationStats[i]? =
        ([exL1, exL2][i]?).map (fun l => fetchLocationStats l (exFetch l)) :=
  spec_c2 "a1" exFetch exLocsData [exL1, exL2] rfl

/-- C3: in every successful aggregate response, `globalStats.totalReviews`
equals the sum of `totalReviewCount` over the `locationStats` entries of
that same response (failed entries contribute their 0). -/
theorem spec_c3 (accountId : String)
    (locationsResult : UpstreamResult LocationsData)
    (fetchReviews : Location → UpstreamResult ReviewsData)
    (body : AggOkBody)
    (hok : allReviewsStats accountId locationsResult fetchReviews = .ok body) :
    body.globalStats.totalReviews =
      (body.locationStats.map (fun st => st.totalReviewCount)).sum := by
  cases locationsResult with
  | err e => rw [allReviewsStats_err] at hok; exact AggResponse.noConfusion hok
  | ok d =>
    rw [allReviewsStats_ok] at hok
    injection hok with hok
    subst hok
    simp [computeGlobalStats, foldl_add_sum]

/-- Witness for C3 on the example response. -/
theorem spec_c3_witness :
    exBody.globalStats.totalReviews =
      (exBody.locationStats.map (fun st => st.totalReviewCount)).sum :=
  spec_c3 "a1" (.ok exLocsData) exFetch exBody rfl

/-- C4: in every successful aggregate response,
`globalStats.averageRatingAcrossAllLocations` is the arithmetic mean of
`averageRating` over all `locationStats` entries (failed entries counting
as 0), rounded to 2 decimals, and 0 when `locationStats` is empty; and on
the spec's worked example (L1 with 10 reviews and 4.5 average, L2 failing)
it equals 2.25. -/
theorem spec_c4 :
    (∀ (accountId : String) (locationsResult : UpstreamResult LocationsData)
        (fetchReviews : Location → UpstreamResult ReviewsData)
        (body : AggOkBody),
      allReviewsStats accountId locationsResult fetchReviews = .ok body →
      body.globalStats.averageRatingAcrossAllLocations =
        if body.locationStats = [] then 0
        else toFixed2 ((body.locationStats.map (fun st => st.averageRating)).sum
          / (body.locationStats.length : ℚ))) ∧
    exBody.globalStats.averageRatingAcrossAllLocations = 9 / 4 := by
  constructor
  · intro accountId locationsResult fetchReviews body hok
    cases locationsResult with
    | err e => rw [allReviewsStats_err] at hok; exact AggResponse.noConfusion hok
    | ok d =>
      rw [allReviewsStats_ok] at hok
      injection hok with hok
      subst hok
      simp only [computeGlobalStats]
      by_cases hS : (d.locations.getD []).map
          (fun l => fetchLocationStats l (fetchReviews l)) = []
      · simp [hS]
      · rw [if_neg hS, if_pos (List.length_pos.mpr hS), foldl_add_sum]
  · have h1 : (fetchLocationStats exL1 (exFetch exL1)).averageRating = 9 / 2 := by
      simp [fetchLocationStats, exFetch, exL1, jsNumOr]
    have h2 : (fetchLocationStats exL2 (exFetch exL2)).averageRating = 0 := by
      simp [fetchLocationStats, exFetch, exL2, exL1]
    simp only [exBody]
    rw [allReviewsStats_ok]
    simp only [exLocsData, Option.getD_some, List.map_cons, List.map_nil]
    simp only [computeGlobalStats]
    rw [if_pos (by simp)]
    simp only [List.foldl, zero_add, h1, h2, List.length_cons, List.length_nil]
    norm_num [toFixed2]

/-- Witness for C4 on the example response (its hypotheses discharged at the
worked example). -/
theorem spec_c4_witness :
    exBody.globalStats.averageRatingAcrossAllLocations =
      if exBody.locationStats = [] then 0
      else toFixed2 ((exBody.locationStats.map (fun st => st.averageRating)).sum
        / (exBody.locationStats.length : ℚ)) :=
  spec_c4.1 "a1" (.ok exLocsData) exFetch exBody rfl

/-- C5: in every successful aggregate response, `globalStats.totalLocations`
equals the length of `locationStats`. -/
theorem spec_c5 (accountId : String)
    (locationsResult : UpstreamResult LocationsData)
    (fetchReviews : Location → UpstreamResult ReviewsData)
    (body : AggOkBody)
    (hok : allReviewsStats accountId locationsResult fetchReviews = .ok body) :
    body.globalStats.totalLocations = body.locationStats.length := by
  cases locationsResult with
  | err e => rw [allReviewsStats_err] at hok; exact AggResponse.noConfusion hok
  | ok d =>
    rw [allReviewsStats_ok] at hok
    injection hok with hok
    subst hok
    simp [computeGlobalStats]

/-- Witness for C5 on the example response. -/
theorem spec_c5_witness :
    exBody.globalStats.totalLocations = exBody.locationStats.length :=
  spec_c5 "a1" (.ok exLocsData) exFetch exBody rfl

/-- C6: the aggregate operation returns an error response (which carries no
`locationStats`) exactly when the location-list fetch fails; when the list
succeeds the response is successful, and with zero locations it is the
successful response with empty `locationStats` and zeroed `GlobalStats`. -/
theorem spec_c6 (accountId : String)
    (fetchReviews : Location → UpstreamResult ReviewsData) :
    (∀ e, ∃ s b, allReviewsStats accountId (.err e) fetchReviews = .err s b) ∧
    (∀ d, ∃ body, allReviewsStats accountId (.ok d) fetchReviews = .ok body) ∧
    (∀ d, d.locations.getD [] = [] →
      allReviewsStats accountId (.ok d) fetchReviews =
        .ok ⟨accountId, ⟨0, 0, 0⟩, []⟩) := by
  refine ⟨fun e => ⟨_, _, allReviewsStats_err accountId e fetchReviews⟩,
    fun d => ⟨_, allReviewsStats_ok accountId d fetchReviews⟩, ?_⟩
  intro d hd
  rw [allReviewsStats_ok, hd]
  rfl

/-- Witness for C6: an empty location list yields the zeroed success
response. -/
theorem spec_c6_witness :
    allReviewsStats "a1" (.ok ⟨some []⟩) exFetch = .ok ⟨"a1", ⟨0, 0, 0⟩, []⟩ :=
  (spec_c6 "a1" exFetch).2.2 ⟨some []⟩ rfl

/-- C7: on the four protected routes, a missing header or one that does not
start with `'Bearer '` yields the 401 structured body whatever the upstream
behaviour is (the upstream functions are never consulted: the result is the
same for every one of them); otherwise the handler runs with the extracted
token. -/
theorem spec_c7 (authHeader : Option (List Char)) :
    ((authHeader = none ∨
        ∃ hdr, authHeader = some hdr ∧ startsWithL hdr bearerLit = false) →
      (∀ upstreamA, accountsRoute authHeader upstreamA =
        .denied 401 authErrorBody) ∧
      (∀ upstreamL, locationsRoute authHeader upstreamL =
        .denied 401 authErrorBody) ∧
      (∀ locationId upstreamR, reviewsStatsRoute locationId authHeader upstreamR =
        .denied 401 authErrorBody) ∧
      (∀ accountId upstreamL upstreamR,
        allReviewsStatsRoute accountId authHeader upstreamL upstreamR =
          .denied 401 authErrorBody)) ∧
    (∀ hdr, authHeader = some hdr → startsWithL hdr bearerLit = true →
      ∃ tok, validateToken authHeader = some tok ∧
        (∀ upstreamA, accountsRoute authHeader upstreamA =
          .handled (accountsHandler (upstreamA tok))) ∧
        (∀ upstreamL, locationsRoute authHeader upstreamL =
          .handled (locationsHandler (upstreamL tok))) ∧
        (∀ locationId upstreamR,
          reviewsStatsRoute locationId authHeader upstreamR =
            .handled (reviewsStatsHandler locationId (upstreamR tok))) ∧
        (∀ accountId upstreamL upstreamR,
          allReviewsStatsRoute accountId authHeader upstreamL upstreamR =
            .handled (allReviewsStats accountId (upstreamL tok) (upstreamR tok)))) := by
  constructor
  · rintro (rfl | ⟨hdr, rfl, hsw⟩)
    · exact ⟨fun _ => rfl, fun _ => rfl, fun _ _ => rfl, fun _ _ _ => rfl⟩
    · refine ⟨fun uA => ?_, fun uL => ?_, fun lid uR => ?_, fun aid uL uR => ?_⟩ <;>
        simp [accountsRoute, locationsRoute, reviewsStatsRoute, allReviewsStatsRoute,
          runProtected, validateToken, hsw]
  · rintro hdr rfl hsw
    refine ⟨(splitCh ' ' hdr).getD 1 [], by simp [validateToken, hsw], ?_, ?_, ?_, ?_⟩ <;>
      intros <;>
      simp [accountsRoute, locationsRoute, reviewsStatsRoute, allReviewsStatsRoute,
        runProtected, validateToken, hsw]

/-- Witness for C7: a malformed header is denied on the accounts route. -/
theorem spec_c7_witness :
    accountsRoute (some ("Token abc".toList)) (fun _ => .ok ⟨none⟩) =
      .denied 401 authErrorBody :=
  ((spec_c7 (some ("Token abc".toList))).1
    (Or.inr ⟨"Token abc".toList, rfl, by decide⟩)).1 (fun _ => .ok ⟨none⟩)

/-- C8: on an upstream failure, the four single-resource operations (accounts
list, locations list, single-location stats, and the location-list step of
the aggregator) all respond with the upstream status code when a response is
present (and has a genuine HTTP status) and 500 otherwise, with the upstream
error body when present and the error message otherwise. -/
theorem spec_c8 (e : AxiosError)
    (hstatus : ∀ r, e.response = some r → r.status ≠ 0) :
    (e.response = none → propagatesAs e 500 (.msg e.message)) ∧
    (∀ r, e.response = some r → r.payload = none →
      propagatesAs e r.status (.msg e.message)) ∧
    (∀ r p, e.response = some r → r.payload = some p →
      propagatesAs e r.status (.body p)) := by
  refine ⟨?_, ?_, ?_⟩
  · intro hre
    refine ⟨?_, ?_, fun lid => ?_, fun aid f => ?_⟩ <;>
      simp [accountsHandler, locationsHandler, reviewsStatsHandler,
        allReviewsStats, statusOf, errOutOf, hre]
  · intro r hre hrp
    refine ⟨?_, ?_, fun lid => ?_, fun aid f => ?_⟩ <;>
      simp [accountsHandler, locationsHandler, reviewsStatsHandler,
        allReviewsStats, statusOf, errOutOf, hre, hrp, hstatus r hre]
  · intro r p hre hrp
    refine ⟨?_, ?_, fun lid => ?_, fun aid f => ?_⟩ <;>
      simp [accountsHandler, locationsHandler, reviewsStatsHandler,
        allReviewsStats, statusOf, errOutOf, hre, hrp, hstatus r hre]

/-- Witness for C8 at a 403 failure with a full error body. -/
theorem spec_c8_witness :
    propagatesAs exErr 403 (.body ⟨some ⟨some "Quota exceeded"⟩⟩) :=
  (spec_c8 exErr (by intro r hr; cases hr; decide)).2.2
    ⟨403, some ⟨some ⟨some "Quota exceeded"⟩⟩⟩ ⟨some ⟨some "Quota exceeded"⟩⟩
    rfl rfl

/-- C9: in every `LocationStats` the aggregator produces, success and failure
branches alike, a missing display name yields the literal `locationName`
"N/A", and a missing address or missing address lines yields the literal
`address` "N/A" (both fields are total `String`s of the record, never
omitted). -/
theorem spec_c9 (location : Location) (outcome : UpstreamResult ReviewsData) :
    (location.locationName = none →
      (fetchLocationStats location outcome).locationName = "N/A") ∧
    (location.address = none →
      (fetchLocationStats location outcome).address = "N/A") ∧
    (∀ a, location.address = some a → a.addressLines = none →
      (fetchLocationStats location outcome).address = "N/A") := by
  refine ⟨?_, ?_, ?_⟩
  · intro hn
    cases outcome <;> simp [fetchLocationStats, jsStrOr, hn]
  · intro ha
    cases outcome <;> simp [fetchLocationStats, jsStrOr, ha]
  · intro a ha hl
    cases outcome <;> simp [fetchLocationStats, jsStrOr, ha, hl]

/-- Witness for C9 at a location lacking a display name, whose address lacks
lines. -/
theorem spec_c9_witness :
    (fetchLocationStats exBare (.ok ⟨some 3, some 4⟩)).locationName = "N/A" ∧
    (fetchLocationStats exBare (.ok ⟨some 3, some 4⟩)).address = "N/A" :=
  ⟨(spec_c9 exBare (.ok ⟨some 3, some 4⟩)).1 rfl,
   (spec_c9 exBare (.ok ⟨some 3, some 4⟩)).2.2 ⟨none⟩ rfl rfl⟩

/-- C10: `validateToken` accepts any header starting with `'Bearer '`
without checking that a token follows; the exact header `"Bearer "` passes
with the empty token, and the request then proceeds to the upstream call
with that empty token; in general the extracted token is the second
space-separated field, namely the characters after the first space (the one
of `'Bearer '`) up to the next space or the end of the header. -/
theorem spec_c10 :
    (∀ hdr : List Char, startsWithL hdr bearerLit = true →
      ∃ tok, validateToken (some hdr) = some tok) ∧
    validateToken (some ("Bearer ".toList)) = some [] ∧
    (∀ upstreamA, accountsRoute (some ("Bearer ".toList)) upstreamA =
      .handled (accountsHandler (upstreamA []))) ∧
    (∀ rest : List Char, validateToken (some (bearerLit ++ rest)) =
      some (rest.takeWhile (fun c => c != ' '))) := by
  refine ⟨?_, by decide, ?_, ?_⟩
  · intro hdr hsw
    exact ⟨(splitCh ' ' hdr).getD 1 [], by simp [validateToken, hsw]⟩
  · intro uA
    show runProtected _ _ = _
    rw [runProtected, show validateToken (some ("Bearer ".toList)) = some []
      from by decide]
  · intro rest
    simp only [validateToken, if_pos (startsWithL_append bearerLit rest)]
    have hb : bearerLit = ['B', 'e', 'a', 'r', 'e', 'r', ' '] := by decide
    rw [hb]
    simp only [List.cons_append, List.nil_append]
    rw [splitCh_getD1_cons (by decide), splitCh_getD1_cons (by decide),
      splitCh_getD1_cons (by decide), splitCh_getD1_cons (by decide),
      splitCh_getD1_cons (by decide), splitCh_getD1_cons (by decide),
      splitCh_sep_cons, List.getD_cons_succ]
    rw [show (splitCh ' ' rest).getD 0 [] = rest.takeWhile (fun c => c != ' ')
      from splitCh_getD0 ' ' rest]

/-- Witness for C10 at two concrete headers. -/
theorem spec_c10_witness :
    (∃ tok, validateToken (some ("Bearer abc".toList)) = some tok) ∧
    validateToken (some (bearerLit ++ "tok more".toList)) =
      some ("tok more".toList.takeWhile (fun c => c != ' ')) :=
  ⟨spec_c10.1 "Bearer abc".toList (by decide),
   spec_c10.2.2.2 "tok more".toList⟩
